import Mathlib

/-!
# Verification of the compare-backend access-control and quota pipeline

Shallow embedding of the access-control, quota and fan-out logic of the
`compare-backend` repository (Express/Node).  Each definition mirrors one
JavaScript function of the source; JS falsy-string behaviour (`"" || x`)
is modelled explicitly with `jsOr`/`truthy`, in-memory `Map`s become
association lists with cons-shadowing for `Map.set`, and thrown exceptions
become `Except String`.
-/

namespace CompareBackend

/-! ### Structural string helpers

Kernel-reducible models of the JS string operations the middlewares
use (`toLowerCase`, `trim`, `split`, `includes`, `startsWith`,
`slice`), defined by structural recursion on the character list so
concrete runs evaluate inside proofs. -/

/-- ASCII lower-casing of one character (`String.prototype.toLowerCase`
restricted to the ASCII identifiers this backend compares). -/
def lowerChar (c : Char) : Char :=
  if 65 ≤ c.toNat ∧ c.toNat ≤ 90 then Char.ofNat (c.toNat + 32) else c

/-- JS `s.toLowerCase()`. -/
def lowerStr (s : String) : String := ⟨s.data.map lowerChar⟩

/-- JS whitespace for `trim`. -/
def isSpaceChar (c : Char) : Bool := c = ' ' ∨ c = '\t' ∨ c = '\n' ∨ c = '\r'

/-- Drop leading whitespace. -/
def dropSpaces : List Char → List Char
  | [] => []
  | c :: t => if isSpaceChar c then dropSpaces t else c :: t

/-- JS `s.trim()`. -/
def trimStr (s : String) : String :=
  ⟨(dropSpaces (dropSpaces s.data).reverse).reverse⟩

/-- JS `s.split(sep)` for a one-character separator, over the char
list. -/
def splitChar (sep : Char) : List Char → List (List Char)
  | [] => [[]]
  | c :: t =>
    let r := splitChar sep t
    if c = sep then [] :: r
    else
      match r with
      | h :: rt => (c :: h) :: rt
      | [] => [[c]]

/-- JS `s.split(sep)` for a one-character separator. -/
def jsSplit (s : String) (sep : Char) : List String :=
  (splitChar sep s.data).map (fun l => ⟨l⟩)

/-- Does `hay` start with `needle`? (JS `startsWith`.) -/
def leadsWith : List Char → List Char → Bool
  | [], _ => true
  | _ :: _, [] => false
  | a :: as, b :: bs => a = b && leadsWith as bs

/-- JS `hay.startsWith(needle)`. -/
def startsWithStr (hay needle : String) : Bool :=
  leadsWith needle.data hay.data

/-- Substring occurrence over char lists. -/
def hasSub (needle : List Char) : List Char → Bool
  | [] => needle.isEmpty
  | c :: t => leadsWith needle (c :: t) || hasSub needle t

/-- JS `s.slice(0, n)` / the first `n` characters. -/
def takeStr (s : String) (n : Nat) : String := ⟨s.data.take n⟩

/-- Equality decider for `Except`, used to evaluate thrown-exception
outcomes in closed proofs. -/
instance {ε α : Type} [DecidableEq ε] [DecidableEq α] :
    DecidableEq (Except ε α)
  | .error a, .error b =>
    if h : a = b then isTrue (by rw [h]) else isFalse (by simp [h])
  | .error _, .ok _ => isFalse (by simp)
  | .ok _, .error _ => isFalse (by simp)
  | .ok a, .ok b =>
    if h : a = b then isTrue (by rw [h]) else isFalse (by simp [h])

/-- JS `a || b` on possibly-absent strings: an empty string is falsy. -/
def jsOr (a b : Option String) : Option String :=
  match a with
  | some s => if s = "" then b else some s
  | none => b

/-- JS `a || d` where `d` is a plain default string. -/
def jsOrD (a : Option String) (d : String) : String :=
  match a with
  | some s => if s = "" then d else s
  | none => d

/-- JS truthiness of a possibly-absent string: `none` and `""` are falsy. -/
def truthy (a : Option String) : Option String :=
  match a with
  | some s => if s = "" then none else some s
  | none => none

/-- JS `hay.includes(needle)`. -/
def includesStr (hay needle : String) : Bool :=
  hasSub needle.data hay.data

/-- `Map.set` on an association list: the new binding shadows the old one. -/
def storeSet (store : List (String × Nat)) (key : String) (v : Nat) :
    List (String × Nat) :=
  (key, v) :: store

/-- Read a counter out of an association-list store, missing keys count 0. -/
def storeGet (store : List (String × Nat)) (key : String) : Nat :=
  (store.lookup key).getD 0

/-- Known provider ids (`PROVIDERS` in server.js). -/
def PROVIDERS : List String := ["openai", "claude", "gemini"]

/-! ## Tokens (src/utils/jwt.js)

A bearer token is modelled structurally: `payload` is `some p` when the
middle base64url segment decodes to the JSON claims `p` (and `none` when
that decode throws), and `sigValid` records whether the HMAC signature
verifies under the server secret.  `jwt.decode` never looks at the
signature; `jwt.verify` fails unless it is valid. -/

namespace Jwt

/-- JWT claims object as read by the middlewares. -/
structure Payload where
  sub : Option String := none
  user_id : Option String := none
  uid : Option String := none
  tier : Option String := none
  plan : Option String := none
  role : Option String := none
  isProFlag : Bool := false
  proFlag : Bool := false
  premiumFlag : Bool := false
  providers : List String := []
  hasKeysFlag : Bool := false
  scope : List String := []
  licenseId : Option String := none
  deviceId : Option String := none
deriving DecidableEq, Repr

/-- A presented bearer token. -/
structure Token where
  payload : Option Payload
  sigValid : Bool
deriving DecidableEq, Repr

/-- `jwt.decode(token)`: structural decode, the signature is ignored
(src/middleware/authSoft.js line 31). -/
def decode (t : Token) : Option Payload := t.payload

/-- `verifyToken` (src/utils/jwt.js lines 16-23): fails closed on a bad
signature, claims are produced only when the signature verifies. -/
def verifyToken (t : Token) : Option Payload :=
  if t.sigValid then t.payload else none

end Jwt

/-! ## Quota Ledger, part_004 variant (`consumePoint`)

`consumePoint` (src/unnamed/part_004 lines 34-45) keeps `buckets :
Map installId {count, resetAt}`.  We model the bucket of one fixed
`installId` within one UTC day (`now > b.resetAt` never holds before the
next midnight), so the bucket is `none` before the first hit of the day
and `some count` afterwards. -/

namespace Part004

/-- Return value of `consumePoint`: `limited` is JS-truthy only on the
rejecting branches. -/
structure ConsumeRes where
  remaining : Nat
  limited : Bool
deriving DecidableEq, Repr

/-- `consumePoint(installId)` from part_004, lines 34-45, for one install
id and one UTC day. -/
def consumePoint (limit : Nat) (installId : String) (b : Option Nat) :
    ConsumeRes × Option Nat :=
  if installId = "" then (⟨0, true⟩, b)
  else
    match b with
    | none => (⟨limit - 1, false⟩, some 1)
    | some c =>
      if limit ≤ c then (⟨0, true⟩, some c)
      else (⟨limit - (c + 1), false⟩, some (c + 1))

/-- `getRemaining(installId)` from part_004, lines 46-49. -/
def getRemaining (limit : Nat) (b : Option Nat) : Nat :=
  match b with
  | some c => limit - c
  | none => limit

/-- The bucket after `n` consecutive `consumePoint` calls in one day. -/
def stateAfter (limit : Nat) (installId : String) : Nat → Option Nat
  | 0 => none
  | n + 1 => (consumePoint limit installId (stateAfter limit installId n)).2

/-- Count stored in a bucket; a missing bucket counts 0. -/
def countOf : Option Nat → Nat
  | none => 0
  | some c => c

end Part004

/-! ## Request state contract (`req.state`)

`authSoft` fills `req.state` and the later middlewares read it
(src/middleware/authSoft.js header comment). -/

/-- The `req.state` record shared by authSoft, rateLimit and proGuard. -/
structure ReqState where
  mode : String
  userId : String
  isPro : Bool
  hasKeys : Bool
  providers : List String
deriving DecidableEq, Repr

/-! ## Soft Identity Resolver (src/middleware/authSoft.js) -/

namespace AuthSoft

/-- The request fields `authSoft` reads.  The bearer token is already
parsed out of the `Authorization: Bearer ...` header (`none` when the
header is absent or not a bearer header). -/
structure Request where
  bodyMode : Option String := none
  bearer : Option Jwt.Token := none
  xUserTier : Option String := none
  xUserProviders : Option String := none
  xProviders : Option String := none
  xHasKeys : Option String := none
  xForwardedFor : Option String := none
  remoteAddr : Option String := none
deriving Repr

/-- Client ip as computed on authSoft.js lines 38-41 (the scalar-header
branch of the array-vs-scalar distinction). -/
def ipOf (xfwd remote : Option String) : String :=
  match xfwd with
  | some s =>
    if s = "" then remote.getD "0.0.0.0"
    else trimStr ((jsSplit s ',').headD "")
  | none => remote.getD "0.0.0.0"

/-- `authSoft` (src/middleware/authSoft.js lines 13-74): never rejects;
derives mode, userId, isPro and hasKeys.  `isPro` and `hasKeys` are read
off the UNVERIFIED `jwt.decode` payload (line 31). -/
def authSoft (req : Request) : ReqState :=
  let bodyMode := lowerStr (req.bodyMode.getD "")
  let mode := if bodyMode = "real" then "real" else "sim"
  let payload : Option Jwt.Payload := req.bearer.bind Jwt.decode
  let ip := ipOf req.xForwardedFor req.remoteAddr
  let userIdFromJwt :=
    jsOr (payload.bind Jwt.Payload.sub)
      (jsOr (payload.bind Jwt.Payload.user_id) (payload.bind Jwt.Payload.uid))
  let userId := jsOrD userIdFromJwt ("anon:" ++ ip)
  let tier :=
    lowerStr (jsOrD (jsOr (payload.bind Jwt.Payload.tier)
      (jsOr (payload.bind Jwt.Payload.plan) (payload.bind Jwt.Payload.role))) "")
  let isProClaim := includesStr tier "pro" ||
    (match payload with
     | some p => p.isProFlag || p.proFlag || p.premiumFlag
     | none => false)
  let xTier := lowerStr (req.xUserTier.getD "")
  let isProHeader := includesStr xTier "pro"
  let headerProv := (jsOr req.xUserProviders req.xProviders).getD ""
  let providers :=
    ((jsSplit headerProv ',').map (fun s => lowerStr (trimStr s))).filter
      (fun s => s ≠ "")
  let hasKeysHeader :=
    match req.xHasKeys with
    | some s => ["1", "true", "yes"].contains (lowerStr s)
    | none => false
  let hasKeysJwt :=
    match payload with
    | some p => (decide (0 < p.providers.length)) || p.hasKeysFlag
    | none => false
  { mode := mode
    userId := userId
    isPro := isProClaim || isProHeader
    hasKeys := hasKeysHeader || decide (0 < providers.length) || hasKeysJwt
    providers := providers }

end AuthSoft

/-! ## Quota Ledger, second rateLimit variant
(src/middleware/rateLimit.js lines 63-144, same free path as
src/unnamed/part_002)

The day-keyed `store : Map (dayKey:userKey) count` becomes an association
list; `setInterval` purging of stale days is outside one-day runs. -/

namespace RateLimitV2

/-- Outcome of the middleware: bypassed (with its logged reason), the
429 rejection, or `next()` with the remaining count attached to the
request. -/
inductive RLRes where
  | bypass (reason : String)
  | tooMany
  | next (remaining : Nat)
deriving DecidableEq, Repr

/-- `rateLimit` (src/middleware/rateLimit.js lines 79-138): debug-header
bypass, whitelist bypass, then the `real && (isPro || hasKeys)` bypass,
then the counted free path.  The rejected attempt still writes the
incremented count into the store (lines 125-126 precede the limit check
on line 133). -/
def rateLimit (secret : String) (whitelist : List String) (limit : Nat)
    (day : String) (dbg : Option String) (ip : String) (st : ReqState)
    (store : List (String × Nat)) : RLRes × List (String × Nat) :=
  if secret ≠ "" ∧ (dbg.getD "") ≠ "" ∧ dbg = some secret then
    (.bypass "debug-header", store)
  else if st.userId ≠ "" ∧ whitelist.contains st.userId then
    (.bypass ("whitelist:" ++ st.userId), store)
  else if st.mode = "real" ∧ (st.isPro ∨ st.hasKeys) then
    (.bypass (if st.isPro then "real+pro" else "real+keys"), store)
  else
    let userKey := if st.userId = "" then "anon:" ++ ip else st.userId
    let key := day ++ ":" ++ userKey
    let count := storeGet store key + 1
    let store' := storeSet store key count
    if limit < count then (.tooMany, store')
    else (.next (limit - count), store')

/-- The store after `n` consecutive requests with the same request state
within one day, starting empty. -/
def iter (limit : Nat) (day ip : String) (st : ReqState) :
    Nat → List (String × Nat)
  | 0 => []
  | n + 1 => (rateLimit "" [] limit day none ip st (iter limit day ip st n)).2

end RateLimitV2

/-! ## Access Policy Engine, state variant (src/middleware/proGuard.js) -/

namespace ProGuardSt

/-- `proGuard` (src/middleware/proGuard.js lines 4-19): downgrades
`real` to `sim` for non-pro, no-keys callers, mirrors the forced mode
into `body.mode`, and ALWAYS calls `next()` — it has no rejecting
branch.  Returns the updated `(req.state, req.body.mode)`. -/
def proGuard (st : ReqState) (bodyMode : Option String) :
    ReqState × Option String :=
  if st.mode = "real" ∧ ¬(st.isPro ∨ st.hasKeys) then
    ({ st with mode := "sim" }, some "sim")
  else (st, bodyMode)

end ProGuardSt

/-! ## Device-Binding Guard and realModeGuard
(src/middleware/realModeGuard.js) -/

namespace RealModeGuard

/-- `licenseDevices : Map licenseId (Set deviceId)` as an association
list; `Set` keeps insertion order, so a set is a duplicate-free list. -/
def Registry := List (String × List String)

instance : DecidableEq Registry := by
  unfold Registry
  infer_instance

/-- Devices registered for a license (`licenseDevices.get(...) || new
Set()`). -/
def devicesOf (reg : Registry) (lic : String) : List String :=
  (List.lookup lic reg).getD []

/-- `licenseDevices.set(lic, set)`: the new binding shadows the old. -/
def setDevices (reg : Registry) (lic : String) (ds : List String) : Registry :=
  (lic, ds) :: reg

/-- `deviceAllowed(decoded, deviceId)` (realModeGuard.js lines 21-34):
inapplicable without a (JS-truthy) licenseId and deviceId; rejects a new
device once the set holds `max` devices; registers a new device below
the cap; always re-admits a seen device. -/
def deviceAllowed (max : Nat) (reg : Registry)
    (licenseId deviceId : Option String) : Bool × Registry :=
  match truthy licenseId, truthy deviceId with
  | some lic, some dev =>
    let devs := devicesOf reg lic
    if ¬devs.contains dev ∧ max ≤ devs.length then (false, reg)
    else if ¬devs.contains dev then (true, setDevices reg lic (devs.concat dev))
    else (true, reg)
  | _, _ => (true, reg)

/-- `tokenAllowsReal` (realModeGuard.js lines 16-19). -/
def tokenAllowsReal (p : Jwt.Payload) : Bool :=
  p.scope.contains "pro" || p.scope.contains "neutral:real"

/-- Middleware outcome: plain `next()`, `next()` after forcing
`body.mode = "simulated"`, the `rateLimitReal` continuation (real mode
granted), or the 409 DEVICE_LIMIT rejection. -/
inductive RMGRes where
  | next
  | nextSimulated
  | nextReal
  | deviceLimit409
deriving DecidableEq, Repr

/-- `realModeGuard` (realModeGuard.js lines 37-78).  Returns the
outcome, the updated device registry and the updated `body.mode`. -/
def realModeGuard (max : Nat) (reg : Registry) (methodPost : Bool)
    (bodyMode : Option String) (userProvidersHdr : Option String)
    (token : Option Jwt.Token) (deviceHdr : Option String) :
    RMGRes × Registry × Option String :=
  if ¬methodPost then (.next, reg, bodyMode)
  else if lowerStr (bodyMode.getD "") ≠ "real" then (.next, reg, bodyMode)
  else if (match userProvidersHdr with
           | some h => decide (0 < (trimStr h).length)
           | none => false) then
    (.nextReal, reg, bodyMode)
  else
    match token with
    | none => (.nextSimulated, reg, some "simulated")
    | some t =>
      match Jwt.verifyToken t with
      | none => (.nextSimulated, reg, some "simulated")
      | some decoded =>
        if ¬tokenAllowsReal decoded then (.nextSimulated, reg, some "simulated")
        else
          let (allowed, reg') := deviceAllowed max reg decoded.licenseId deviceHdr
          if allowed then (.nextReal, reg', bodyMode)
          else (.deviceLimit409, reg', bodyMode)

end RealModeGuard

/-! ## proGuard with admin branch and requestHasRealPower
(src/unnamed/part_003), plus the first rateLimit variant
(src/middleware/rateLimit.js lines 1-62) that calls it. -/

namespace Part003

/-- `hasUserProviders` (part_003 lines 3-8). -/
def hasUserProviders (h : Option String) : Bool :=
  match h with
  | none => false
  | some s => decide (0 < (trimStr s).length)

/-- Request fields read by this middleware pair. -/
structure Req where
  bodyMode : Option String := none
  authRole : Option String := none
  authPro : Bool := false
  xUserProviders : Option String := none
deriving DecidableEq, Repr

/-- `requestHasRealPower` (part_003 lines 31-39).  Its admin branch
executes `return next()` although `next` is NOT in scope there, so an
admin request throws `ReferenceError: next is not defined` instead of
returning a boolean. -/
def requestHasRealPower (req : Req) : Except String Bool :=
  if req.authRole = some "admin" then
    .error "ReferenceError: next is not defined"
  else
    let wantsReal := lowerStr (req.bodyMode.getD "") = "real"
    .ok (wantsReal ∧ (req.authPro ∨ hasUserProviders req.xUserProviders))

/-- `proGuard` (part_003 lines 15-28): admins pass untouched, a `real`
request without pro or keys is downgraded to `"simulated"`, and
`next()` is always reached. -/
def proGuard (req : Req) : Req :=
  if req.authRole = some "admin" then req
  else
    let wantsReal := lowerStr (req.bodyMode.getD "") = "real"
    if wantsReal ∧ ¬(req.authPro ∨ hasUserProviders req.xUserProviders) then
      { req with bodyMode := some "simulated" }
    else req

/-- Outcome of the first rateLimit variant. -/
inductive RL1Res where
  | nextBypass
  | nextAdmin
  | reject429
  | nextCounted (newCount : Nat)
deriving DecidableEq, Repr

/-- `rateLimit` (src/middleware/rateLimit.js lines 34-62) for one key
within one day (`now >= b.resetAt` never holds): it calls
`requestHasRealPower` FIRST, so the exception thrown there for admins
propagates out of the middleware (HTTP 500); the dedicated admin check
on line 42 comes after and is unreachable for admins. -/
def rateLimitV1 (limit : Nat) (req : Req) (count : Nat) :
    Except String RL1Res :=
  match requestHasRealPower req with
  | .error e => .error e
  | .ok true => .ok .nextBypass
  | .ok false =>
    if req.authRole = some "admin" then .ok .nextAdmin
    else if limit ≤ count then .ok .reject429
    else .ok (.nextCounted (count + 1))

end Part003

/-! ## The part_007 pipeline (authSoft → rateLimit → proGuard)

This variant's `proGuard` (part_007 lines 60-68) HARD-REJECTS a
`mode=real` request from a non-pro, non-bypassed caller with HTTP
402 `pro_required` instead of downgrading it. -/

namespace Part007

/-- Per-request state of this variant. -/
structure St where
  mode : String
  isPro : Bool
  bypassed : Bool
deriving DecidableEq, Repr

/-- The `/^Bearer\s+eyJ/` heuristic of part_007 line 37, the whitespace
run modelled as a single space. -/
def isProHeur (auth : Option String) : Bool :=
  match auth with
  | some a => startsWithStr a "Bearer eyJ"
  | none => false

/-- `authSoft` (part_007 lines 27-39). -/
def authSoft (simulate : Bool) (auth bodyMode : Option String) : St :=
  let effMode :=
    jsOrD ((truthy bodyMode).map lowerStr)
      (if simulate then "sim" else "real")
  { mode := effMode, isPro := isProHeur auth, bypassed := false }

/-- Outcome of one rateLimit step of this variant. -/
inductive RLRes where
  | tooMany
  | next (st : St) (used : Nat)
deriving DecidableEq, Repr

/-- `rateLimit` (part_007 lines 42-57) for one key within one day.
Unlike the counting variants, this one checks BEFORE incrementing. -/
def rateLimit (secret : String) (limit : Nat) (dbg : Option String)
    (st : St) (used : Nat) : RLRes :=
  if secret ≠ "" ∧ (dbg.getD "") ≠ "" ∧ dbg = some secret then
    .next { st with bypassed := true } used
  else if limit ≤ used then .tooMany
  else .next { st with bypassed := false } (used + 1)

/-- `proGuard` (part_007 lines 60-68): `true` means the 402
`pro_required` rejection fires. -/
def proGuardRejects (st : St) : Bool :=
  st.mode = "real" ∧ ¬st.bypassed ∧ ¬st.isPro

/-- End-to-end outcome of `POST /v1/compare-multi` in this variant. -/
inductive Out where
  | ok200
  | err429
  | err402
deriving DecidableEq, Repr

/-- `authSoft → rateLimit → proGuard → handler` (part_007 line 98),
up to the point where the handler answers `ok:true`. -/
def pipeline (simulate : Bool) (secret : String) (limit : Nat)
    (auth dbg bodyMode : Option String) (used : Nat) : Out :=
  let st := authSoft simulate auth bodyMode
  match rateLimit secret limit dbg st used with
  | .tooMany => .err429
  | .next st' _ => if proGuardRejects st' then .err402 else .ok200

end Part007

/-! ## Provider Fan-Out, server.js `/v1/compare-multi`

The per-provider try/catch (server.js lines 259-281) turns each
provider outcome into its own result record; `outcome p` is the
`Except` result of `withTimeout(callProvider(...))` for provider `p`
under its own `AbortController`. -/

namespace ServerJs

/-- `DEFAULT_MODELS` (server.js lines 20-24); an unknown provider id
indexes to JS `undefined`, modelled as `""`. -/
def defaultModel : String → String
  | "openai" => "gpt-4o-mini"
  | "claude" => "claude-3-haiku-20240307"
  | "gemini" => "gemini-1.5-flash"
  | _ => ""

/-- `pickModel` (server.js lines 26-29). -/
def pickModel (provider : String) (requested : Option String) : String :=
  match requested with
  | some r => if trimStr r ≠ "" then trimStr r else defaultModel provider
  | none => defaultModel provider

/-- One slot of the aggregate `results` array (latency and usage, which
are wall-clock data, are projected out). -/
structure Entry where
  ok : Bool
  provider : String
  model : String
  output : Option String
  error : Option String
deriving DecidableEq, Repr

/-- `providers.map(toLowerCase).filter(PROVIDERS.includes)` (line 240). -/
def normalize (ps : List String) : List String :=
  (ps.map lowerStr).filter (fun p => PROVIDERS.contains p)

/-- The body of one task (server.js lines 250-282): success and failure
both resolve to an entry for that provider alone. -/
def taskResult (outcome : String → Except String String)
    (models : String → Option String) (p : String) : Entry :=
  match outcome p with
  | .ok out => ⟨true, p, pickModel p (models p), some out, none⟩
  | .error e => ⟨false, p, pickModel p (models p), none, some e⟩

/-- Response of the endpoint. -/
inductive Response where
  | badRequest (msg : String)
  | ok (results : List Entry)
deriving DecidableEq, Repr

/-- `POST /v1/compare-multi` (server.js lines 233-291): input
validation in source order, then `Promise.all` over the per-provider
tasks, which never rejects because every task catches its own error. -/
def compareMulti (outcome : String → Except String String)
    (models : String → Option String) (providers : Option (List String))
    (prompt : Option String) : Response :=
  match providers with
  | none => .badRequest "providers requerido (array con al menos un proveedor)"
  | some ps =>
    if ps = [] then
      .badRequest "providers requerido (array con al menos un proveedor)"
    else
      let normalized := normalize ps
      if normalized = [] then
        .badRequest "providers inválidos. Soportados: openai, claude, gemini"
      else
        match prompt with
        | none => .badRequest "prompt requerido (string)"
        | some p =>
          if p = "" then .badRequest "prompt requerido (string)"
          else .ok (normalized.map (taskResult outcome models))

end ServerJs

/-! ## Provider Fan-Out, part_004 `/v1/compare-multi`

This older variant maps `models` to tasks that THROW on provider
failure and feeds them to `Promise.all` with no per-task catch
(part_004 lines 72-93): a single failing provider rejects the whole
`Promise.all` and the outer catch answers HTTP 500. -/

namespace Part004

/-- One task of part_004 lines 73-84: known models call their provider,
unknown models resolve to the `(modelo desconocido)` placeholder
entry. -/
def taskOf (outcome : String → Except String String) (m : String) :
    Except String (String × String) :=
  if m = "openai" ∨ m = "claude" ∨ m = "gemini" then
    (outcome m).map (fun t => (m, t))
  else .ok (m, "(modelo desconocido)")

/-- `Promise.all`: rejects with the first rejection, otherwise resolves
to all values. -/
def allOf : List (Except String α) → Except String (List α)
  | [] => .ok []
  | t :: ts =>
    match t with
    | .error e => .error e
    | .ok a => (allOf ts).map (fun as => a :: as)

/-- Response of the part_004 endpoint. -/
inductive P4Res where
  | missingInstall400
  | limited429
  | badInput400
  | serverError500
  | ok (outputs : List (String × String)) (remaining : Nat)
deriving DecidableEq, Repr

/-- `POST /v1/compare-multi` (part_004 lines 60-93). -/
def compareMulti (limit : Nat) (installId : String) (bucket : Option Nat)
    (prompt : Option String) (models : Option (List String))
    (outcome : String → Except String String) : P4Res :=
  if installId = "" then .missingInstall400
  else
    let r := consumePoint limit installId bucket
    if r.1.limited then .limited429
    else
      match prompt, models with
      | some p, some ms =>
        if p = "" ∨ ms = [] then .badInput400
        else
          match allOf (ms.map (taskOf outcome)) with
          | .ok entries => .ok entries (getRemaining limit r.2)
          | .error _ => .serverError500
      | _, _ => .badInput400

/-- Whether a provider has an output slot in the aggregate response. -/
def hasOutputFor (r : P4Res) (m : String) : Bool :=
  match r with
  | .ok outputs _ => outputs.any (fun e => e.1 = m)
  | _ => false

end Part004

/-! ## Provider Fan-Out, part_005 `/v1/compare-multi`
(the `providers`-respecting handler, lines 64-95)

`runOpenAIorSim` etc. are the per-provider calls of the surrounding
server; they can throw (caught into the 500 branch). -/

namespace Part005

/-- The response object `out` built up field by field. -/
structure P5Out where
  openai : Option String
  claude : Option String
  gemini : Option String
deriving DecidableEq, Repr

/-- Endpoint outcome. -/
inductive P5Res where
  | badRequest
  | internalError (detail : String)
  | ok (out : P5Out)
deriving DecidableEq, Repr

/-- `want` (part_005 lines 73-75): absent or empty `providers` defaults
to all three known providers, for compatibility. -/
def wantOf (providers : Option (List String)) : List String :=
  let ps := providers.getD []
  if 0 < ps.length then ps else ["openai", "claude", "gemini"]

/-- `if (want.has(p)) out[p] = await runPorSim(prompt)`. -/
def optRun (b : Bool) (f : String → Except String String) (p : String) :
    Except String (Option String) :=
  if b then (f p).map some else .ok none

/-- `POST /v1/compare-multi` (part_005 lines 64-95). -/
def compareMulti (runO runC runG : String → Except String String)
    (prompt : Option String) (providers : Option (List String)) : P5Res :=
  match prompt with
  | none => .badRequest
  | some p =>
    if p = "" then .badRequest
    else
      let want := wantOf providers
      let built : Except String P5Out := do
        let o ← optRun (want.contains "openai") runO p
        let c ← optRun (want.contains "claude") runC p
        let g ← optRun (want.contains "gemini") runG p
        pure ⟨o, c, g⟩
      match built with
      | .ok out => .ok out
      | .error e => .internalError e

end Part005

/-! ## Token/License Verifier router (src/utils/jwt.js lines 31-107)

`hmacHex` is `crypto.createHmac("sha256", LICENSE_SECRET)` — with the
secret fixed it is one deterministic function of its input, so it is a
parameter `hmac : String → String` of the model. -/

namespace AuthRouter

/-- `signProToken` (src/utils/jwt.js lines 6-14): the base claims
`{scope:["pro","neutral:real"], plan:"pro"}` merged with the caller
payload `{licenseId, deviceId}`, signed with the server secret. -/
def signProToken (licenseId deviceId : Option String) : Jwt.Token :=
  { payload := some
      { plan := some "pro"
        scope := ["pro", "neutral:real"]
        licenseId := licenseId
        deviceId := deviceId }
    sigValid := true }

/-- Successful activation response (jwt.js lines 68-80). -/
structure ActOk where
  licenseId : String
  token : Jwt.Token
  plan : String
  scope : List String
  devicesMax : Nat
deriving DecidableEq, Repr

/-- `POST /activate` outcome. -/
inductive ActRes where
  | noKey400
  | invalidKey400
  | ok (r : ActOk)
deriving DecidableEq, Repr

/-- `POST /activate` (jwt.js lines 51-81): the key is accepted either
literally from the plain allow-list or by its lowercased HMAC digest
from the hashed allow-list; `licenseId` is derived from the key's own
HMAC, never from the token. -/
def activate (allowPlain allowHmac : List String) (hmac : String → String)
    (deviceMax : Nat) (key deviceId : Option String) : ActRes :=
  match truthy key with
  | none => .noKey400
  | some k =>
    let valid := allowPlain.contains k || allowHmac.contains (lowerStr (hmac k))
    if valid then
      let licenseId := "lic_" ++ takeStr (hmac k) 16
      .ok ⟨licenseId, signProToken (some licenseId) deviceId, "pro",
        ["pro", "neutral:real"], deviceMax⟩
    else .invalidKey400

/-- `GET /status` outcome. -/
inductive StatusRes where
  | unauthorized (code : String)
  | ok (plan : String) (scope : List String)
      (licenseId deviceId : Option String)
deriving DecidableEq, Repr

/-- `GET /status` (jwt.js lines 84-104): 401 NO_TOKEN without a bearer
token; otherwise the payload segment is base64/JSON decoded WITHOUT any
signature check — only a decode failure yields 401 INVALID_TOKEN, and a
decodable payload is answered `ok:true` with its unverified claims. -/
def statusHandler (token : Option Jwt.Token) : StatusRes :=
  match token with
  | none => .unauthorized "NO_TOKEN"
  | some t =>
    match t.payload with
    | none => .unauthorized "INVALID_TOKEN"
    | some p => .ok (jsOrD p.plan "pro") p.scope p.licenseId p.deviceId

end AuthRouter

/-! ## x-app-key quota variant (src/unnamed/part_009 lines 1-188) -/

namespace Part009

/-- `getPlanFromToken` (part_009 lines 38-45): `USERS_JSON` already
parsed into an association list (a parse failure is the empty list);
`map[token] || "free"`. -/
def getPlanFromToken (usersMap : List (String × String)) (token : String) :
    String :=
  jsOrD (List.lookup token usersMap) "free"

/-- Quota answer: `remaining = none` models `Infinity` for pro. -/
structure QuotaRes where
  ok : Bool
  remaining : Option Nat
deriving DecidableEq, Repr

/-- The usage bucket key `(token || "anon") + "|" + todayKey()`
(part_009 line 47). -/
def quotaKey (token day : String) : String :=
  (if token = "" then "anon" else token) ++ "|" ++ day

/-- `checkAndCountQuota` (part_009 lines 46-56): rejects a free caller
at the ceiling WITHOUT incrementing, otherwise counts the hit. -/
def checkAndCountQuota (freeQuota : Nat) (usage : List (String × Nat))
    (day token plan : String) : QuotaRes × List (String × Nat) :=
  let key := quotaKey token day
  let stat := storeGet usage key
  if plan = "free" ∧ freeQuota ≤ stat then (⟨false, some 0⟩, usage)
  else
    let usage' := storeSet usage key (stat + 1)
    let remaining := if plan = "free" then some (freeQuota - (stat + 1)) else none
    (⟨true, remaining⟩, usage')

/-- `req.headers["x-app-key"] || req.body?.appKey || ""` (line 122);
`GET /me` passes no body key (line 182). -/
def tokenOf (xAppKey bodyAppKey : Option String) : String :=
  jsOrD (jsOr xAppKey bodyAppKey) ""

/-- Outcome of the quota gate shared by `POST /compare` (lines 120-127)
and `GET /me` (lines 181-186). -/
inductive GateRes where
  | tooMany429 (plan : String)
  | proceed (plan : String) (remaining : Option Nat)
      (usage : List (String × Nat))
deriving DecidableEq, Repr

/-- The quota check at the head of `POST /compare`. -/
def compareGate (usersMap : List (String × String)) (freeQuota : Nat)
    (day : String) (usage : List (String × Nat))
    (xAppKey bodyAppKey : Option String) : GateRes :=
  let token := tokenOf xAppKey bodyAppKey
  let plan := getPlanFromToken usersMap token
  let r := checkAndCountQuota freeQuota usage day token plan
  if r.1.ok then .proceed plan r.1.remaining r.2 else .tooMany429 plan

/-- The quota check of `GET /me` (which also consumes one unit). -/
def meGate (usersMap : List (String × String)) (freeQuota : Nat)
    (day : String) (usage : List (String × Nat)) (xAppKey : Option String) :
    GateRes :=
  compareGate usersMap freeQuota day usage xAppKey none

end Part009

/-! ### Concrete scenario inputs used by the closed theorems -/

/-- The forged bearer token of the C3 scenario: its payload claims
`plan:"pro"` but its signature does not verify. -/
def forgedProToken : Jwt.Token := ⟨some { plan := some "pro" }, false⟩

/-- A `mode=real` request carrying the forged token. -/
def reqForged : AuthSoft.Request :=
  { bodyMode := some "real", bearer := some forgedProToken }

/-- The same request with no token at all. -/
def reqAnon : AuthSoft.Request := { bodyMode := some "real" }

/-- An admin request as resolved by the auth middleware. -/
def adminReq : Part003.Req :=
  { bodyMode := some "real", authRole := some "admin", authPro := true }

/-- A decodable pro payload used in the `GET /status` scenarios. -/
def statusPayload : Jwt.Payload :=
  { plan := some "pro", scope := ["pro"], licenseId := some "lic_42" }

/-- The decoded claims of a forged pro token presented to `/status`. -/
def forgedStatusPayload : Jwt.Payload :=
  { plan := some "pro", scope := ["pro", "neutral:real"],
    licenseId := some "lic_abc" }

/-! # Theorems -/

/-- The part_004 bucket after `n ≥ 1` in-day hits holds `min n limit`. -/
lemma Part004.stateAfter_succ (limit : Nat) (instId : String)
    (hid : instId ≠ "") (hlim : 1 ≤ limit) :
    ∀ n, stateAfter limit instId (n + 1) = some (min (n + 1) limit) := by
  intro n
  induction n with
  | zero =>
    simp only [stateAfter, consumePoint, hid, if_false, reduceIte]
    simp [Nat.min_eq_left hlim]
  | succ n ih =>
    show (consumePoint limit instId (stateAfter limit instId (n + 1))).2 = _
    rw [ih]
    simp only [consumePoint, hid, reduceIte]
    split
    · simp only [Option.some.injEq]
      omega
    · simp only [Option.some.injEq]
      omega

/-- One free-path (non-bypassed) step of the second rateLimit variant. -/
lemma RateLimitV2.rateLimit_free_step (limit : Nat) (day ip : String)
    (st : ReqState) (s : List (String × Nat))
    (hnb : ¬(st.mode = "real" ∧ (st.isPro ∨ st.hasKeys)))
    (huid : st.userId ≠ "") :
    rateLimit "" [] limit day none ip st s =
      (let key := day ++ ":" ++ st.userId
       let count := storeGet s key + 1
       if limit < count then (.tooMany, storeSet s key count)
       else (.next (limit - count), storeSet s key count)) := by
  unfold rateLimit
  rw [if_neg (by simp), if_neg (by simp [List.contains]), if_neg hnb]
  simp only [huid, reduceIte, if_neg]

/-- After `n` same-key free-path requests the stored count is exactly
`n`: the rejected attempts keep incrementing it. -/
lemma RateLimitV2.iter_count (limit : Nat) (day ip : String)
    (st : ReqState)
    (hnb : ¬(st.mode = "real" ∧ (st.isPro ∨ st.hasKeys)))
    (huid : st.userId ≠ "") :
    ∀ n, storeGet (iter limit day ip st n) (day ++ ":" ++ st.userId) = n := by
  intro n
  induction n with
  | zero => simp [iter, storeGet]
  | succ n ih =>
    show storeGet (rateLimit "" [] limit day none ip st
      (iter limit day ip st n)).2 _ = _
    rw [rateLimit_free_step limit day ip st _ hnb huid]
    simp only [ih]
    split <;> simp [storeGet, storeSet, List.lookup]

/-- C1: for the part_004 `consumePoint` ledger the claim holds: within
one UTC day the stored count is `min n limit` after `n` consume calls —
it saturates at the ceiling and the rejecting call does not increment —
and the call is rejected exactly when the count has reached the
ceiling.  In the rateLimit.js store variant (same free path as
part_002) the rejected attempt still increments the stored count: after
`n` attempts the stored count is `n`, exceeding the ceiling as soon as
`n` does, although every attempt beyond the ceiling is still rejected
with 429. -/
theorem quota_count_saturation (limit n : Nat) (day ip instId : String)
    (st : ReqState) (hlim : 1 ≤ limit) (hid : instId ≠ "")
    (hnb : ¬(st.mode = "real" ∧ (st.isPro ∨ st.hasKeys)))
    (huid : st.userId ≠ "") :
    Part004.countOf (Part004.stateAfter limit instId n) = min n limit ∧
    ((Part004.consumePoint limit instId
        (Part004.stateAfter limit instId n)).1.limited
      = decide (limit ≤ min n limit)) ∧
    storeGet (RateLimitV2.iter limit day ip st n) (day ++ ":" ++ st.userId)
      = n ∧
    ((RateLimitV2.rateLimit "" [] limit day none ip st
        (RateLimitV2.iter limit day ip st n)).1
      = if limit < n + 1 then .tooMany else .next (limit - (n + 1))) := by
  refine ⟨?_, ?_, RateLimitV2.iter_count limit day ip st hnb huid n, ?_⟩
  · cases n with
    | zero => simp [Part004.stateAfter, Part004.countOf]
    | succ n =>
      rw [Part004.stateAfter_succ limit instId hid hlim n]
      simp [Part004.countOf]
  · cases n with
    | zero =>
      simp only [Part004.stateAfter, Part004.consumePoint, hid, reduceIte]
      simp only [Nat.zero_min]
      rw [decide_eq_false (by omega)]
    | succ n =>
      rw [Part004.stateAfter_succ limit instId hid hlim n]
      simp only [Part004.consumePoint, hid, reduceIte]
      split
      · next h => simp [decide_eq_true h]; omega
      · next h => simp [decide_eq_false h]; omega
  · rw [RateLimitV2.rateLimit_free_step limit day ip st _ hnb huid]
    simp only [RateLimitV2.iter_count limit day ip st hnb huid n]
    split <;> simp

/-- Witness for C1 at ceiling 3 after 5 attempts. -/
theorem quota_count_saturation_witness :
    Part004.countOf (Part004.stateAfter 3 "inst-1" 5) = min 5 3 ∧
    ((Part004.consumePoint 3 "inst-1"
        (Part004.stateAfter 3 "inst-1" 5)).1.limited = decide (3 ≤ min 5 3)) ∧
    storeGet
      (RateLimitV2.iter 3 "20261011" "9.9.9.9"
        ⟨"sim", "u1", false, false, []⟩ 5) ("20261011" ++ ":" ++ "u1") = 5 ∧
    ((RateLimitV2.rateLimit "" [] 3 "20261011" none "9.9.9.9"
        ⟨"sim", "u1", false, false, []⟩
        (RateLimitV2.iter 3 "20261011" "9.9.9.9"
          ⟨"sim", "u1", false, false, []⟩ 5)).1
      = if 3 < 5 + 1 then .tooMany else .next (3 - (5 + 1))) :=
  quota_count_saturation 3 5 "20261011" "9.9.9.9" "inst-1"
    ⟨"sim", "u1", false, false, []⟩ (by decide) (by decide) (by decide)
    (by decide)

/-- C1 counterexample: in the rateLimit.js store variant with ceiling
2, the third same-day attempt is rejected with 429 AND still increments
the stored count to 3, which exceeds the ceiling — the counter runs
away instead of saturating. -/
theorem rateLimit_count_runs_away :
    ((RateLimitV2.rateLimit "" [] 2 "20261011" none "1.1.1.1"
        ⟨"sim", "u1", false, false, []⟩
        (RateLimitV2.iter 2 "20261011" "1.1.1.1"
          ⟨"sim", "u1", false, false, []⟩ 2)).1 = .tooMany) ∧
    storeGet
      (RateLimitV2.iter 2 "20261011" "1.1.1.1"
        ⟨"sim", "u1", false, false, []⟩ 3) ("20261011" ++ ":" ++ "u1") = 3 ∧
    ¬(storeGet
        (RateLimitV2.iter 2 "20261011" "1.1.1.1"
          ⟨"sim", "u1", false, false, []⟩ 3) ("20261011" ++ ":" ++ "u1")
      ≤ 2) := by
  refine ⟨by decide, by decide, by decide⟩

/-- C2 (amended): in the middleware/proGuard.js state variant and in
realModeGuard, a `mode=real` request from a non-pro, no-keys identity
(no verifying pro token) is silently downgraded to simulated and the
request continues through `next()` — neither middleware has an error
branch for lacking pro access.  The part_007 variant instead
hard-rejects such a request with HTTP 402 `pro_required` (see the
counterexample). -/
theorem real_mode_downgrade (st : ReqState) (bodyMode : Option String)
    (max : Nat) (reg : RealModeGuard.Registry) (tok : Option Jwt.Token)
    (devHdr : Option String) (hmode : st.mode = "real")
    (hpro : st.isPro = false) (hkeys : st.hasKeys = false) :
    ProGuardSt.proGuard st bodyMode = ({ st with mode := "sim" }, some "sim") ∧
    RealModeGuard.realModeGuard max reg true (some "real") none none devHdr
      = (.nextSimulated, reg, some "simulated") ∧
    (∀ t, tok = some t → Jwt.verifyToken t = none →
      RealModeGuard.realModeGuard max reg true (some "real") none tok devHdr
        = (.nextSimulated, reg, some "simulated")) := by
  refine ⟨?_, ?_, ?_⟩
  · rw [ProGuardSt.proGuard, if_pos]
    exact ⟨hmode, by simp [hpro, hkeys]⟩
  · rfl
  · intro t ht hv
    subst ht
    simp [RealModeGuard.realModeGuard, hv,
      show lowerStr "real" = "real" from rfl]

/-- Witness for C2: an anonymous caller asking `mode=real` with a
forged (non-verifying) pro token. -/
theorem real_mode_downgrade_witness :
    ProGuardSt.proGuard ⟨"real", "u1", false, false, []⟩ (some "real")
      = (⟨"sim", "u1", false, false, []⟩, some "sim") ∧
    RealModeGuard.realModeGuard 3 [] true (some "real") none none none
      = (.nextSimulated, [], some "simulated") ∧
    RealModeGuard.realModeGuard 3 [] true (some "real") none
        (some ⟨some { plan := some "pro", scope := ["pro"] }, false⟩) none
      = (.nextSimulated, [], some "simulated") := by
  obtain ⟨h1, h2, h3⟩ := real_mode_downgrade ⟨"real", "u1", false, false, []⟩
    (some "real") 3 []
    (some ⟨some { plan := some "pro", scope := ["pro"] }, false⟩) none
    rfl rfl rfl
  exact ⟨h1, h2, h3 _ rfl (by decide)⟩

/-- C2 counterexample: in the part_007 variant, a request that asks
`mode=real` with no token (hence not pro), no provider keys, no admin
role and no debug bypass is hard-rejected with HTTP 402 `pro_required`
instead of completing `ok:true` in simulated mode. -/
theorem real_mode_hard_rejection_part007 :
    Part007.pipeline false "" 25 none none (some "real") 0
      = .err402 := by decide

/-- C3: the privilege decisions are NOT invariant under swapping a
forged token for no token.  `authSoft` reads `isPro` off the unverified
`jwt.decode` payload, so the forged-token run gets quota bypass
(`real+pro`) in the second rateLimit variant and keeps `mode=real`
through proGuard, while the token-less run is metered and downgraded to
simulated — even though `verifyToken` rejects the forged token. -/
theorem unverified_decode_grants_privilege :
    Jwt.verifyToken forgedProToken = none ∧
    (AuthSoft.authSoft reqForged).isPro = true ∧
    (AuthSoft.authSoft reqAnon).isPro = false ∧
    (AuthSoft.authSoft reqAnon).hasKeys = false ∧
    (RateLimitV2.rateLimit "" [] 25 "20261011" none "0.0.0.0"
        (AuthSoft.authSoft reqForged) []).1 = .bypass "real+pro" ∧
    (RateLimitV2.rateLimit "" [] 25 "20261011" none "0.0.0.0"
        (AuthSoft.authSoft reqAnon) []).1 = .next 24 ∧
    (ProGuardSt.proGuard (AuthSoft.authSoft reqForged) (some "real")).1.mode
      = "real" ∧
    (ProGuardSt.proGuard (AuthSoft.authSoft reqAnon) (some "real")).1.mode
      = "sim" := by decide

/-- C6: an admin request does NOT pass the first rateLimit variant.
`requestHasRealPower` (part_003) runs `return next()` in its admin
branch although `next` is not in scope there, so the middleware throws
`ReferenceError: next is not defined` and the request dies with HTTP
500; the dedicated admin-bypass check inside rateLimit is unreachable
for admins.  (The part_003 `proGuard` itself does let the admin through
with the requested mode untouched.) -/
theorem admin_request_throws :
    Part003.requestHasRealPower adminReq
      = .error "ReferenceError: next is not defined" ∧
    Part003.rateLimitV1 9 adminReq 0
      = .error "ReferenceError: next is not defined" ∧
    Part003.proGuard adminReq = adminReq := by decide

/-- Each server.js task labels its entry with its own provider id. -/
lemma ServerJs.taskResult_provider (o : String → Except String String)
    (m : String → Option String) (q : String) :
    (taskResult o m q).provider = q := by
  unfold taskResult
  cases o q <;> rfl

/-- The provider column of the aggregate is the requested normalized
list itself. -/
lemma ServerJs.results_providers (o : String → Except String String)
    (m : String → Option String) :
    ∀ l : List String, (l.map (taskResult o m)).map Entry.provider = l := by
  intro l
  induction l with
  | nil => rfl
  | cons q t ih => simp [taskResult_provider, ih]

/-- Pointwise relation between two mapped task lists. -/
lemma ServerJs.forall2_of_map {R : Entry → Entry → Prop}
    (f g : String → Entry) (h : ∀ a, R (f a) (g a)) :
    ∀ l : List String, List.Forall₂ R (l.map f) (l.map g) := by
  intro l
  induction l with
  | nil => exact List.Forall₂.nil
  | cons q t ih => exact List.Forall₂.cons (h q) ih

/-- C4 (amended): in the server.js `/v1/compare-multi` handler each
task catches its own failure, so for any two outcome assignments that
differ only at provider `p`, both runs answer `ok:true` with one entry
per requested known provider in request order, and the entries of every
provider other than `p` are identical in the two runs — `p` failing or
timing out neither removes nor changes any sibling entry.  In the
part_004 variant a single provider failure instead aborts the whole
aggregate with HTTP 500 (see the counterexample). -/
theorem fanout_failure_isolated (ps : List String) (prompt : String)
    (o₁ o₂ : String → Except String String) (models : String → Option String)
    (p : String) (hne : ServerJs.normalize ps ≠ []) (hp : prompt ≠ "")
    (hagree : ∀ q, q ≠ p → o₁ q = o₂ q) :
    ServerJs.compareMulti o₁ models (some ps) (some prompt)
      = .ok ((ServerJs.normalize ps).map (ServerJs.taskResult o₁ models)) ∧
    ServerJs.compareMulti o₂ models (some ps) (some prompt)
      = .ok ((ServerJs.normalize ps).map (ServerJs.taskResult o₂ models)) ∧
    ((ServerJs.normalize ps).map (ServerJs.taskResult o₁ models)).map
        ServerJs.Entry.provider = ServerJs.normalize ps ∧
    ((ServerJs.normalize ps).map (ServerJs.taskResult o₂ models)).map
        ServerJs.Entry.provider = ServerJs.normalize ps ∧
    List.Forall₂
      (fun e₁ e₂ => e₁.provider = e₂.provider ∧ (e₁.provider ≠ p → e₁ = e₂))
      ((ServerJs.normalize ps).map (ServerJs.taskResult o₁ models))
      ((ServerJs.normalize ps).map (ServerJs.taskResult o₂ models)) := by
  have hps : ps ≠ [] := by
    intro h
    exact hne (by simp [ServerJs.normalize, h])
  refine ⟨?_, ?_, ServerJs.results_providers o₁ models _,
    ServerJs.results_providers o₂ models _, ?_⟩
  · simp [ServerJs.compareMulti, hps, hne, hp]
  · simp [ServerJs.compareMulti, hps, hne, hp]
  · refine ServerJs.forall2_of_map _ _ (fun q => ?_) _
    refine ⟨by simp [ServerJs.taskResult_provider], fun hq => ?_⟩
    rw [ServerJs.taskResult_provider] at hq
    unfold ServerJs.taskResult
    rw [hagree q hq]

/-- Witness for C4: openai fails in the first run and succeeds in the
second; the claude entry is present and identical in both. -/
theorem fanout_failure_isolated_witness :
    ServerJs.compareMulti
        (fun q => if q = "openai" then .error "timeout after 35000ms"
                  else .ok "hola desde claude")
        (fun _ => none) (some ["openai", "claude"]) (some "hola")
      = .ok ((ServerJs.normalize ["openai", "claude"]).map
          (ServerJs.taskResult
            (fun q => if q = "openai" then .error "timeout after 35000ms"
                      else .ok "hola desde claude")
            (fun _ => none))) ∧
    List.Forall₂
      (fun e₁ e₂ =>
        e₁.provider = e₂.provider ∧ (e₁.provider ≠ "openai" → e₁ = e₂))
      ((ServerJs.normalize ["openai", "claude"]).map
        (ServerJs.taskResult
          (fun q => if q = "openai" then .error "timeout after 35000ms"
                    else .ok "hola desde claude")
          (fun _ => none)))
      ((ServerJs.normalize ["openai", "claude"]).map
        (ServerJs.taskResult
          (fun q => if q = "openai" then .ok "respuesta openai"
                    else .ok "hola desde claude")
          (fun _ => none))) := by
  have h := fanout_failure_isolated ["openai", "claude"] "hola"
    (fun q => if q = "openai" then .error "timeout after 35000ms"
              else .ok "hola desde claude")
    (fun q => if q = "openai" then .ok "respuesta openai"
              else .ok "hola desde claude")
    (fun _ => none) "openai" (by decide) (by decide)
    (fun q hq => by simp [hq])
  exact ⟨h.1, h.2.2.2.2⟩

/-- C4 counterexample: in the part_004 variant (`Promise.all` over
tasks with no per-task catch) an openai failure makes the whole request
answer HTTP 500 `Server error`: the claude call succeeded, yet the
aggregate contains no claude entry at all. -/
theorem fanout_all_or_nothing_part004 :
    Part004.compareMulti 3 "inst-1" none (some "hola")
        (some ["openai", "claude"])
        (fun q => if q = "openai" then .error "OpenAI error 500"
                  else .ok "hola desde claude")
      = .serverError500 ∧
    Part004.hasOutputFor
        (Part004.compareMulti 3 "inst-1" none (some "hola")
          (some ["openai", "claude"])
          (fun q => if q = "openai" then .error "OpenAI error 500"
                    else .ok "hola desde claude"))
        "claude" = false := by decide

/-- C5 (amended): in the part_005 `/v1/compare-multi` handler, with the
provider calls succeeding, the response is `ok:true` and carries
exactly one entry per known provider in the `want` set and none for the
others: unknown requested ids match no known field, so they produce no
entry and no error, and an absent or empty provider list defaults
`want` to the full known set.  (The server.js handler instead rejects
an empty provider list with HTTP 400 — see the counterexample.) -/
theorem provider_selection (fO fC fG : String → String) (prompt : String)
    (providers : Option (List String)) (hp : prompt ≠ "") :
    Part005.compareMulti (fun s => .ok (fO s)) (fun s => .ok (fC s))
        (fun s => .ok (fG s)) (some prompt) providers
      = .ok
          ⟨if (Part005.wantOf providers).contains "openai" then
              some (fO prompt) else none,
           if (Part005.wantOf providers).contains "claude" then
              some (fC prompt) else none,
           if (Part005.wantOf providers).contains "gemini" then
              some (fG prompt) else none⟩ ∧
    (providers.getD [] = [] →
      Part005.wantOf providers = ["openai", "claude", "gemini"]) ∧
    (∀ ps, providers = some ps → ps ≠ [] → Part005.wantOf providers = ps) := by
  refine ⟨?_, ?_, ?_⟩
  · simp only [Part005.compareMulti, hp, reduceIte]
    cases hO : (Part005.wantOf providers).contains "openai" <;>
      cases hC : (Part005.wantOf providers).contains "claude" <;>
        cases hG : (Part005.wantOf providers).contains "gemini" <;>
          simp [Part005.optRun, hO, hC, hG, Bind.bind, Except.bind,
            Except.map, Pure.pure, Except.pure]
  · intro h
    simp [Part005.wantOf, h]
  · intro ps hps hne
    subst hps
    simp [Part005.wantOf, List.length_pos.mpr hne]

/-- Witness for C5: `providers = ["openai","bogus"]` yields an openai
entry, no claude/gemini entry, no entry for `bogus`, and no error. -/
theorem provider_selection_witness :
    Part005.compareMulti (fun _ => .ok "o-res") (fun _ => .ok "c-res")
        (fun _ => .ok "g-res") (some "hola") (some ["openai", "bogus"])
      = .ok
          ⟨if (Part005.wantOf (some ["openai", "bogus"])).contains "openai" then
              some "o-res" else none,
           if (Part005.wantOf (some ["openai", "bogus"])).contains "claude" then
              some "c-res" else none,
           if (Part005.wantOf (some ["openai", "bogus"])).contains "gemini" then
              some "g-res" else none⟩ ∧
    Part005.wantOf (some ([] : List String)) = ["openai", "claude", "gemini"] ∧
    Part005.wantOf (some ["openai", "bogus"]) = ["openai", "bogus"] := by
  refine ⟨(provider_selection (fun _ => "o-res") (fun _ => "c-res")
      (fun _ => "g-res") "hola" (some ["openai", "bogus"]) (by decide)).1,
    (provider_selection (fun _ => "o-res") (fun _ => "c-res")
      (fun _ => "g-res") "hola" (some ([] : List String)) (by decide)).2.1
      (by decide),
    (provider_selection (fun _ => "o-res") (fun _ => "c-res")
      (fun _ => "g-res") "hola" (some ["openai", "bogus"]) (by decide)).2.2
      ["openai", "bogus"] rfl (by decide)⟩

/-- C5 counterexample: the server.js `/v1/compare-multi` handler
rejects an empty provider list with HTTP 400 instead of serving the
request against the full known provider set. -/
theorem empty_providers_rejected_serverjs :
    ServerJs.compareMulti (fun _ => .ok "salida") (fun _ => none)
        (some []) (some "hola")
      = .badRequest "providers requerido (array con al menos un proveedor)" := by
  decide

/-- `deviceAllowed` on an applicable license/device pair, with the
`Set` bookkeeping spelled out. -/
lemma RealModeGuard.deviceAllowed_eq (max : Nat) (reg : Registry)
    (licO devO : Option String) (lic dev : String)
    (hlic : truthy licO = some lic) (hdev : truthy devO = some dev) :
    deviceAllowed max reg licO devO
      = (if ¬(devicesOf reg lic).contains dev ∧
            max ≤ (devicesOf reg lic).length then (false, reg)
         else if ¬(devicesOf reg lic).contains dev then
           (true, setDevices reg lic ((devicesOf reg lic).concat dev))
         else (true, reg)) := by
  unfold deviceAllowed
  rw [hlic, hdev]

/-- C7: the Device-Binding Guard is inapplicable without a (JS-truthy)
license id and device id; it always re-admits an already-registered
device id regardless of the set size; it admits and registers a new
device id while the license's set is below `DEVICE_MAX`; and once the
set holds `DEVICE_MAX` devices it rejects any new device id, in which
case `realModeGuard` answers HTTP 409 `DEVICE_LIMIT` (with the registry
unchanged) for a verified pro token carrying that license. -/
theorem device_binding (max : Nat) (reg : RealModeGuard.Registry)
    (licO devO : Option String) :
    (truthy licO = none ∨ truthy devO = none →
      RealModeGuard.deviceAllowed max reg licO devO = (true, reg)) ∧
    (∀ lic dev, truthy licO = some lic → truthy devO = some dev →
      ((RealModeGuard.devicesOf reg lic).contains dev = true →
        RealModeGuard.deviceAllowed max reg licO devO = (true, reg)) ∧
      ((RealModeGuard.devicesOf reg lic).contains dev = false →
        (RealModeGuard.devicesOf reg lic).length < max →
        RealModeGuard.deviceAllowed max reg licO devO
          = (true, RealModeGuard.setDevices reg lic
              ((RealModeGuard.devicesOf reg lic).concat dev))) ∧
      ((RealModeGuard.devicesOf reg lic).contains dev = false →
        max ≤ (RealModeGuard.devicesOf reg lic).length →
        RealModeGuard.deviceAllowed max reg licO devO = (false, reg) ∧
        RealModeGuard.realModeGuard max reg true (some "real") none
            (some ⟨some { scope := ["pro"], licenseId := licO }, true⟩) devO
          = (.deviceLimit409, reg, some "real"))) := by
  constructor
  · intro h
    unfold RealModeGuard.deviceAllowed
    rcases h with h | h
    · rw [h]
    · rw [h]
      cases truthy licO <;> rfl
  · intro lic dev hlic hdev
    refine ⟨?_, ?_, ?_⟩
    · intro hmem
      rw [RealModeGuard.deviceAllowed_eq max reg licO devO lic dev hlic hdev]
      rw [if_neg (fun hc => hc.1 hmem), if_neg (fun hc => hc hmem)]
    · intro hmem hlen
      rw [RealModeGuard.deviceAllowed_eq max reg licO devO lic dev hlic hdev]
      rw [if_neg (fun hc => absurd hc.2 (Nat.not_le.mpr hlen)),
        if_pos (by simpa using hmem)]
    · intro hmem hlen
      have hda : RealModeGuard.deviceAllowed max reg licO devO = (false, reg) := by
        rw [RealModeGuard.deviceAllowed_eq max reg licO devO lic dev hlic hdev]
        rw [if_pos ⟨by simpa using hmem, hlen⟩]
      refine ⟨hda, ?_⟩
      simp [RealModeGuard.realModeGuard, Jwt.verifyToken,
        RealModeGuard.tokenAllowsReal, hda,
        show lowerStr "real" = "real" from rfl]

/-- Witness for C7 with `DEVICE_MAX = 2` and a license that has already
registered devices `a` and `b`: `c` is rejected with 409 DEVICE_LIMIT,
`a` is re-admitted unchanged, a below-cap registry registers `b`, and a
device-less request is always allowed. -/
theorem device_binding_witness :
    RealModeGuard.deviceAllowed 2 [("L1", ["a", "b"])] (some "L1") (some "c")
      = (false, [("L1", ["a", "b"])]) ∧
    RealModeGuard.realModeGuard 2 [("L1", ["a", "b"])] true (some "real") none
        (some ⟨some { scope := ["pro"], licenseId := some "L1" }, true⟩)
        (some "c")
      = (.deviceLimit409, [("L1", ["a", "b"])], some "real") ∧
    RealModeGuard.deviceAllowed 2 [("L1", ["a", "b"])] (some "L1") (some "a")
      = (true, [("L1", ["a", "b"])]) ∧
    RealModeGuard.deviceAllowed 2 [("L1", ["a"])] (some "L1") (some "b")
      = (true, [("L1", ["a", "b"]), ("L1", ["a"])]) ∧
    RealModeGuard.deviceAllowed 2 [("L1", ["a", "b"])] (some "L1") none
      = (true, [("L1", ["a", "b"])]) := by
  obtain ⟨-, hfull⟩ := device_binding 2 [("L1", ["a", "b"])] (some "L1") (some "c")
  obtain ⟨hre, -, -⟩ :=
    (device_binding 2 [("L1", ["a", "b"])] (some "L1") (some "a")).2 "L1" "a"
      rfl rfl
  obtain ⟨-, hreg, -⟩ :=
    (device_binding 2 [("L1", ["a"])] (some "L1") (some "b")).2 "L1" "b"
      rfl rfl
  obtain ⟨hrej, hguard⟩ :=
    ((hfull "L1" "c" rfl rfl).2.2 (by decide) (by decide))
  exact ⟨hrej, hguard, hre (by decide),
    hreg (by decide) (by decide),
    (device_binding 2 [("L1", ["a", "b"])] (some "L1") none).1 (Or.inr rfl)⟩

/-- C8 (amended): `GET /status` answers 401 only when the token is
missing (`NO_TOKEN`) or its payload segment fails to base64/JSON decode
(`INVALID_TOKEN`).  Any token with a decodable payload — the signature
is never consulted, as the last conjunct states — is answered with its
UNVERIFIED claims `{ok, plan, scope, licenseId, deviceId}`, so a forged
token is not rejected with 401 (see the counterexample). -/
theorem status_soft_read (tok : Option Jwt.Token) :
    (tok = none → AuthRouter.statusHandler tok = .unauthorized "NO_TOKEN") ∧
    (∀ t, tok = some t → t.payload = none →
      AuthRouter.statusHandler tok = .unauthorized "INVALID_TOKEN") ∧
    (∀ t p, tok = some t → t.payload = some p →
      AuthRouter.statusHandler tok
        = .ok (jsOrD p.plan "pro") p.scope p.licenseId p.deviceId) ∧
    (∀ pl b₁ b₂, AuthRouter.statusHandler (some ⟨pl, b₁⟩)
      = AuthRouter.statusHandler (some ⟨pl, b₂⟩)) := by
  refine ⟨?_, ?_, ?_, ?_⟩
  · intro h
    rw [h]
    rfl
  · intro t ht hp
    rw [ht]
    simp [AuthRouter.statusHandler, hp]
  · intro t p ht hp
    rw [ht]
    simp [AuthRouter.statusHandler, hp]
  · intro pl b₁ b₂
    cases pl <;> rfl

/-- Witness for C8: a decodable pro payload is answered identically
whether or not the signature verifies. -/
theorem status_soft_read_witness :
    AuthRouter.statusHandler (some ⟨some statusPayload, false⟩)
      = .ok "pro" ["pro"] (some "lic_42") none ∧
    AuthRouter.statusHandler (some ⟨none, true⟩)
      = .unauthorized "INVALID_TOKEN" ∧
    AuthRouter.statusHandler none = .unauthorized "NO_TOKEN" ∧
    AuthRouter.statusHandler (some ⟨some statusPayload, false⟩)
      = AuthRouter.statusHandler (some ⟨some statusPayload, true⟩) := by
  refine ⟨?_, ?_, ?_, ?_⟩
  · exact (status_soft_read (some ⟨some statusPayload, false⟩)).2.2.1 _
      statusPayload rfl rfl
  · exact (status_soft_read (some ⟨none, true⟩)).2.1 _ rfl rfl
  · exact (status_soft_read none).1 rfl
  · exact (status_soft_read none).2.2.2 (some statusPayload) false true

/-- C8 counterexample: a token whose signature does NOT verify
(`verifyToken` rejects it) is still answered `ok:true` with its decoded
claims by `GET /status`, not with 401. -/
theorem status_answers_forged_token :
    Jwt.verifyToken ⟨some forgedStatusPayload, false⟩ = none ∧
    AuthRouter.statusHandler (some ⟨some forgedStatusPayload, false⟩)
      = .ok "pro" ["pro", "neutral:real"] (some "lic_abc") none := by decide

/-- C9: `activate` derives the `licenseId` deterministically from the
activation key alone (`"lic_" + hmac(key).slice(0,16)`), never from the
issued token or the call context, so any two successful activations of
the same key agree on the `licenseId`, which is also the one embedded
in both issued tokens. -/
theorem activate_licenseId_deterministic (ap ah : List String)
    (hm : String → String) (dmax : Nat) (k : String) (d₁ d₂ : Option String)
    (r₁ r₂ : AuthRouter.ActOk)
    (h₁ : AuthRouter.activate ap ah hm dmax (some k) d₁ = .ok r₁)
    (h₂ : AuthRouter.activate ap ah hm dmax (some k) d₂ = .ok r₂) :
    r₁.licenseId = r₂.licenseId ∧
    r₁.licenseId = "lic_" ++ takeStr (hm k) 16 ∧
    (r₁.token.payload.map Jwt.Payload.licenseId).getD none
      = some r₁.licenseId ∧
    (r₂.token.payload.map Jwt.Payload.licenseId).getD none
      = some r₂.licenseId := by
  unfold AuthRouter.activate truthy at h₁ h₂
  by_cases hk : k = ""
  · simp [hk] at h₁
  · simp only [hk, reduceIte] at h₁ h₂
    by_cases hv : (ap.contains k || ah.contains (lowerStr (hm k))) = true
    · rw [if_pos hv] at h₁ h₂
      cases h₁'' : r₁
      cases h₂'' : r₂
      rw [h₁''] at h₁
      rw [h₂''] at h₂
      injection h₁ with h₁
      injection h₂ with h₂
      rw [← h₁, ← h₂]
      refine ⟨rfl, rfl, rfl, rfl⟩
    · rw [if_neg hv] at h₁
      exact absurd h₁ (by simp)

/-- Witness for C9: two activations of the same allow-listed key with
different device ids yield the same `licenseId`. -/
theorem activate_licenseId_deterministic_witness :
    AuthRouter.activate ["MIC-PRO-AAAA"] [] (fun s => s) 3
        (some "MIC-PRO-AAAA") (some "dev-1")
      = .ok ⟨"lic_MIC-PRO-AAAA",
          AuthRouter.signProToken (some "lic_MIC-PRO-AAAA") (some "dev-1"),
          "pro", ["pro", "neutral:real"], 3⟩ ∧
    AuthRouter.activate ["MIC-PRO-AAAA"] [] (fun s => s) 3
        (some "MIC-PRO-AAAA") none
      = .ok ⟨"lic_MIC-PRO-AAAA",
          AuthRouter.signProToken (some "lic_MIC-PRO-AAAA") none,
          "pro", ["pro", "neutral:real"], 3⟩ ∧
    (⟨"lic_MIC-PRO-AAAA",
        AuthRouter.signProToken (some "lic_MIC-PRO-AAAA") (some "dev-1"),
        "pro", ["pro", "neutral:real"], 3⟩ : AuthRouter.ActOk).licenseId
      = (⟨"lic_MIC-PRO-AAAA",
          AuthRouter.signProToken (some "lic_MIC-PRO-AAAA") none,
          "pro", ["pro", "neutral:real"], 3⟩ : AuthRouter.ActOk).licenseId := by
  refine ⟨by decide, by decide, ?_⟩
  exact (activate_licenseId_deterministic ["MIC-PRO-AAAA"] [] (fun s => s) 3
    "MIC-PRO-AAAA" (some "dev-1") none _ _ (by decide) (by decide)).1

/-- C10: in the x-app-key variant, a request with no `x-app-key` header
and no body `appKey` resolves to the empty token, hence to the single
bucket `"anon|<day>"` shared by every anonymous caller, and (as long as
`USERS_JSON` maps no empty key) to the `free` plan.  Once that shared
bucket has reached the free daily quota, both `POST /compare` and
`GET /me` answer 429 for EVERY anonymous caller that day without
touching the counter; below the quota an anonymous request increments
the one shared counter. -/
theorem anon_shared_quota (usersMap : List (String × String))
    (freeQuota : Nat) (day : String) (usage : List (String × Nat))
    (hanon : List.lookup "" usersMap = none) :
    Part009.tokenOf none none = "" ∧
    Part009.quotaKey "" day = "anon|" ++ day ∧
    Part009.getPlanFromToken usersMap "" = "free" ∧
    (freeQuota ≤ storeGet usage ("anon|" ++ day) →
      Part009.compareGate usersMap freeQuota day usage none none
        = .tooMany429 "free" ∧
      Part009.meGate usersMap freeQuota day usage none = .tooMany429 "free" ∧
      (Part009.checkAndCountQuota freeQuota usage day "" "free").2 = usage) ∧
    (storeGet usage ("anon|" ++ day) < freeQuota →
      Part009.compareGate usersMap freeQuota day usage none none
        = .proceed "free"
            (some (freeQuota - (storeGet usage ("anon|" ++ day) + 1)))
            (storeSet usage ("anon|" ++ day)
              (storeGet usage ("anon|" ++ day) + 1))) := by
  have hplan : Part009.getPlanFromToken usersMap "" = "free" := by
    simp [Part009.getPlanFromToken, jsOrD, hanon]
  have hkey : Part009.quotaKey "" day = "anon|" ++ day := rfl
  refine ⟨rfl, hkey, hplan, ?_, ?_⟩
  · intro h
    have hq : Part009.checkAndCountQuota freeQuota usage day "" "free"
        = (⟨false, some 0⟩, usage) := by
      unfold Part009.checkAndCountQuota
      rw [hkey, if_pos ⟨rfl, h⟩]
    refine ⟨?_, ?_, by rw [hq]⟩ <;>
      simp [Part009.compareGate, Part009.meGate, Part009.tokenOf, jsOrD,
        jsOr, hplan, hq]
  · intro h
    have hq : Part009.checkAndCountQuota freeQuota usage day "" "free"
        = (⟨true, some (freeQuota - (storeGet usage ("anon|" ++ day) + 1))⟩,
           storeSet usage ("anon|" ++ day)
             (storeGet usage ("anon|" ++ day) + 1)) := by
      unfold Part009.checkAndCountQuota
      rw [hkey, if_neg (fun hc => absurd hc.2 (Nat.not_le.mpr h))]
      rfl
    simp [Part009.compareGate, Part009.tokenOf, jsOrD, jsOr, hplan, hq]

/-- Witness for C10 with quota 2: an exhausted shared anon bucket
rejects both endpoints and stays untouched; a fresh one is counted. -/
theorem anon_shared_quota_witness :
    Part009.compareGate [("demo-pro", "pro")] 2 "2026-10-11"
        [("anon|2026-10-11", 2)] none none = .tooMany429 "free" ∧
    Part009.meGate [("demo-pro", "pro")] 2 "2026-10-11"
        [("anon|2026-10-11", 2)] none = .tooMany429 "free" ∧
    (Part009.checkAndCountQuota 2 [("anon|2026-10-11", 2)] "2026-10-11" ""
        "free").2 = [("anon|2026-10-11", 2)] ∧
    Part009.compareGate [("demo-pro", "pro")] 2 "2026-10-11" [] none none
      = .proceed "free" (some (2 - (storeGet [] ("anon|" ++ "2026-10-11") + 1)))
          (storeSet [] ("anon|" ++ "2026-10-11")
            (storeGet [] ("anon|" ++ "2026-10-11") + 1)) := by
  obtain ⟨-, -, -, hfull, -⟩ := anon_shared_quota [("demo-pro", "pro")] 2
    "2026-10-11" [("anon|2026-10-11", 2)] (by decide)
  obtain ⟨h1, h2, h3⟩ := hfull (by decide)
  exact ⟨h1, h2, h3,
    (anon_shared_quota [("demo-pro", "pro")] 2 "2026-10-11" []
      (by decide)).2.2.2.2 (by decide)⟩

end CompareBackend
